import Mathlib

/-!
Verification of the store-finder core: the haversine distance function
(`distance_between`) and the linear-scan nearest-store search
(`find_nearest_store`) from `store_finder/store_finder.py`, embedded over
the real numbers.  Python floats are modelled as real numbers; a Python
function that can raise is modelled as returning an `Option`.
-/

namespace StoreFinder

/-- `KM_TO_MI = 0.621371` from the source. -/
def KM_TO_MI : ℝ := 0.621371

/-- `EARTH_RADIUS_KM = 6371` from the source. -/
def EARTH_RADIUS_KM : ℝ := 6371

/-- `EARTH_RADIUS_MI = EARTH_RADIUS_KM * KM_TO_MI` from the source. -/
noncomputable def EARTH_RADIUS_MI : ℝ := EARTH_RADIUS_KM * KM_TO_MI

/-- The `Point` named tuple: latitude and longitude in degrees. -/
structure Point where
  latitude : ℝ
  longitude : ℝ

/-- `Point.latitude_radians`: `math.radians(self.latitude)`, i.e. degrees
converted to radians. -/
noncomputable def Point.latitude_radians (p : Point) : ℝ :=
  p.latitude * (Real.pi / 180)

/-- `Point.longitude_radians`: `math.radians(self.longitude)`. -/
noncomputable def Point.longitude_radians (p : Point) : ℝ :=
  p.longitude * (Real.pi / 180)

/-- The `Store` named tuple.  `distance_to_store` is `None` until a search
attaches a distance, so it is modelled as `Option ℝ`. -/
structure Store where
  name : String
  location : String
  address : String
  city : String
  state : String
  zip_code : String
  latitude : ℝ
  longitude : ℝ
  county : String
  distance_to_store : Option ℝ

/-- `distance_between(point_a, point_b, units)`: the haversine formula as
written in the source, selecting the miles radius exactly when
`units == 'mi'` and the kilometres radius otherwise. -/
noncomputable def distance_between (point_a point_b : Point) (units : String := "mi") : ℝ :=
  let sphere_radius := if units = "mi" then EARTH_RADIUS_MI else EARTH_RADIUS_KM
  let sqrt_arg1 := Real.sin ((point_b.latitude_radians - point_a.latitude_radians) / 2) ^ 2
  let sqrt_arg2 := Real.cos point_a.latitude_radians * Real.cos point_b.latitude_radians *
    Real.sin ((point_b.longitude_radians - point_a.longitude_radians) / 2) ^ 2
  let arcsin_arg := Real.sqrt (sqrt_arg1 + sqrt_arg2)
  2 * sphere_radius * Real.arcsin arcsin_arg

/-- The body of the `for store in stores` loop of `find_nearest_store`,
carrying the running best (`nearest_store`, which starts unbound, hence
`Option`) and `smallest_distance`.  Returning `none` models the
`UnboundLocalError` raised when the loop never assigns `nearest_store`. -/
noncomputable def find_nearest_loop (search_point : Point) (units : String) :
    List Store → Option Store → ℝ → Option Store
  | [], nearest_store, _ => nearest_store
  | store :: rest, nearest_store, smallest_distance =>
    let store_point : Point := ⟨store.latitude, store.longitude⟩
    let distance_to_store := distance_between search_point store_point units
    if distance_to_store < smallest_distance then
      find_nearest_loop search_point units rest
        (some { store with distance_to_store := some distance_to_store })
        distance_to_store
    else
      find_nearest_loop search_point units rest nearest_store smallest_distance

/-- `find_nearest_store(search_point, stores, units)`: seed the running
best with the full great-circle circumference `2·π·R` in the chosen unit,
then scan the stores in order, keeping the strictly smaller distance. -/
noncomputable def find_nearest_store (search_point : Point) (stores : List Store)
    (units : String := "mi") : Option Store :=
  let earth_circumference :=
    if units = "mi" then 2 * Real.pi * EARTH_RADIUS_MI else 2 * Real.pi * EARTH_RADIUS_KM
  find_nearest_loop search_point units stores none earth_circumference

/-- The distance from the query to a store's point, as computed inside the
loop of `find_nearest_store`. -/
noncomputable def store_distance (search_point : Point) (units : String) (store : Store) : ℝ :=
  distance_between search_point ⟨store.latitude, store.longitude⟩ units

/-- The sphere radius selected by `distance_between` for a given units
string. -/
noncomputable def selected_radius (units : String) : ℝ :=
  if units = "mi" then EARTH_RADIUS_MI else EARTH_RADIUS_KM

/-- A concrete store (the fixture of the repository's test suite), used to
instantiate theorems at concrete inputs. -/
def sampleStore : Store :=
  ⟨"Crystal", "SWC Broadway and Bass Lake Rd", "5537 W Broadway Ave", "Crystal",
    "MN", "55428-3507", 45.0521539, -93.364854, "Hennepin County", none⟩

/-- A second concrete store at the origin, used to instantiate theorems at
concrete inputs. -/
def sampleStore2 : Store :=
  { sampleStore with name := "Origin", latitude := 0, longitude := 0 }

/-- A concrete query point, used to instantiate theorems at concrete
inputs. -/
def samplePoint : Point := ⟨37.789783, -122.419862⟩

end StoreFinder

namespace StoreFinder

theorem selected_radius_pos (units : String) : 0 < selected_radius units := by
  unfold selected_radius EARTH_RADIUS_MI EARTH_RADIUS_KM KM_TO_MI
  split <;> norm_num

theorem distance_between_eq (a b : Point) (u : String) :
    distance_between a b u = 2 * selected_radius u *
      Real.arcsin (Real.sqrt
        (Real.sin ((b.latitude_radians - a.latitude_radians) / 2) ^ 2 +
          Real.cos a.latitude_radians * Real.cos b.latitude_radians *
            Real.sin ((b.longitude_radians - a.longitude_radians) / 2) ^ 2)) := rfl

theorem distance_between_nonneg (a b : Point) (u : String) :
    0 ≤ distance_between a b u := by
  rw [distance_between_eq]
  have hr := selected_radius_pos u
  have ha : (0:ℝ) ≤ Real.arcsin (Real.sqrt
      (Real.sin ((b.latitude_radians - a.latitude_radians) / 2) ^ 2 +
        Real.cos a.latitude_radians * Real.cos b.latitude_radians *
          Real.sin ((b.longitude_radians - a.longitude_radians) / 2) ^ 2)) :=
    Real.arcsin_nonneg.mpr (Real.sqrt_nonneg _)
  nlinarith

theorem distance_between_le (a b : Point) (u : String) :
    distance_between a b u ≤ Real.pi * selected_radius u := by
  rw [distance_between_eq]
  have hr := selected_radius_pos u
  have ha : Real.arcsin (Real.sqrt
      (Real.sin ((b.latitude_radians - a.latitude_radians) / 2) ^ 2 +
        Real.cos a.latitude_radians * Real.cos b.latitude_radians *
          Real.sin ((b.longitude_radians - a.longitude_radians) / 2) ^ 2)) ≤ Real.pi / 2 :=
    Real.arcsin_le_pi_div_two _
  nlinarith

theorem sin_sq_half_symm (x y : ℝ) :
    Real.sin ((x - y) / 2) ^ 2 = Real.sin ((y - x) / 2) ^ 2 := by
  have h : (x - y) / 2 = -((y - x) / 2) := by ring
  rw [h, Real.sin_neg]
  ring

theorem store_distance_def (q : Point) (u : String) (c : Store) :
    distance_between q ⟨c.latitude, c.longitude⟩ u = store_distance q u c := rfl

theorem find_nearest_loop_of_forall_le (q : Point) (u : String) :
    ∀ (l : List Store) (best : Option Store) (s : ℝ),
      (∀ c ∈ l, ¬ store_distance q u c < s) →
      find_nearest_loop q u l best s = best := by
  intro l
  induction l with
  | nil => intro best s _; rfl
  | cons hd rest ih =>
    intro best s hall
    have hhd : ¬ store_distance q u hd < s := hall hd (List.mem_cons_self hd rest)
    simp only [find_nearest_loop, store_distance_def]
    rw [if_neg hhd]
    exact ih best s fun c hc => hall c (List.mem_cons_of_mem hd hc)

theorem find_nearest_loop_first_min (q : Point) (u : String) :
    ∀ (l : List Store) (s : ℝ) (best : Option Store),
      (∃ c ∈ l, store_distance q u c < s) →
      ∃ l₁ c l₂, l = l₁ ++ c :: l₂ ∧
        find_nearest_loop q u l best s =
          some { c with distance_to_store := some (store_distance q u c) } ∧
        store_distance q u c < s ∧
        (∀ c' ∈ l₁, store_distance q u c < store_distance q u c') ∧
        (∀ c' ∈ l, store_distance q u c ≤ store_distance q u c') := by
  intro l
  induction l with
  | nil =>
    rintro s best ⟨c, hc, -⟩
    exact absurd hc (List.not_mem_nil c)
  | cons hd rest ih =>
    intro s best hex
    by_cases hhd : store_distance q u hd < s
    · have hstep : find_nearest_loop q u (hd :: rest) best s =
          find_nearest_loop q u rest
            (some { hd with distance_to_store := some (store_distance q u hd) })
            (store_distance q u hd) := by
        simp only [find_nearest_loop, store_distance_def]
        rw [if_pos hhd]
      by_cases hrest : ∃ c ∈ rest, store_distance q u c < store_distance q u hd
      · obtain ⟨l₁, c, l₂, hl, hres, hlt, hearlier, hle⟩ :=
          ih (store_distance q u hd)
            (some { hd with distance_to_store := some (store_distance q u hd) }) hrest
        refine ⟨hd :: l₁, c, l₂, by rw [hl]; rfl, hstep.trans hres, hlt.trans hhd, ?_, ?_⟩
        · intro c' hc'
          rcases List.mem_cons.mp hc' with h | h
          · rw [h]; exact hlt
          · exact hearlier c' h
        · intro c' hc'
          rcases List.mem_cons.mp hc' with h | h
          · rw [h]; exact hlt.le
          · exact hle c' h
      · push_neg at hrest
        refine ⟨[], hd, rest, rfl, ?_, hhd, by simp, ?_⟩
        · rw [hstep]
          exact find_nearest_loop_of_forall_le q u rest _ _
            fun c hc => not_lt.mpr (hrest c hc)
        · intro c' hc'
          rcases List.mem_cons.mp hc' with h | h
          · rw [h]
          · exact hrest c' h
    · have hstep : find_nearest_loop q u (hd :: rest) best s =
          find_nearest_loop q u rest best s := by
        simp only [find_nearest_loop, store_distance_def]
        rw [if_neg hhd]
      obtain ⟨c₀, hc₀, hc₀lt⟩ := hex
      have hc₀rest : c₀ ∈ rest := by
        rcases List.mem_cons.mp hc₀ with h | h
        · exact absurd (h ▸ hc₀lt) hhd
        · exact h
      obtain ⟨l₁, c, l₂, hl, hres, hlt, hearlier, hle⟩ :=
        ih s best ⟨c₀, hc₀rest, hc₀lt⟩
      have hclthd : store_distance q u c < store_distance q u hd :=
        hlt.trans_le (not_lt.mp hhd)
      refine ⟨hd :: l₁, c, l₂, by rw [hl]; rfl, hstep.trans hres, hlt, ?_, ?_⟩
      · intro c' hc'
        rcases List.mem_cons.mp hc' with h | h
        · rw [h]; exact hclthd
        · exact hearlier c' h
      · intro c' hc'
        rcases List.mem_cons.mp hc' with h | h
        · rw [h]; exact hclthd.le
        · exact hle c' h

theorem find_nearest_store_eq_loop (q : Point) (stores : List Store) (u : String) :
    find_nearest_store q stores u =
      find_nearest_loop q u stores none (2 * Real.pi * selected_radius u) := by
  unfold find_nearest_store selected_radius
  split <;> rfl

theorem head_beats_sentinel (q : Point) (u : String) (c : Store) :
    store_distance q u c < 2 * Real.pi * selected_radius u := by
  have h1 := distance_between_le q ⟨c.latitude, c.longitude⟩ u
  have h2 := selected_radius_pos u
  have h3 := Real.pi_pos
  unfold store_distance
  nlinarith

theorem circumference_eq (u : String) :
    (if u = "mi" then 2 * Real.pi * EARTH_RADIUS_MI else 2 * Real.pi * EARTH_RADIUS_KM) =
      2 * Real.pi * selected_radius u := by
  unfold selected_radius
  split <;> rfl

/-- C1: for every query point, non-empty candidate list and unit string,
`find_nearest_store` returns a record built from one of the candidates,
carrying that candidate's distance, and that distance is a lower bound on
the distance of every candidate — i.e. the returned distance is the
minimum over the candidates and the returned record achieves it. -/
theorem find_nearest_store_min_correct (q : Point) (stores : List Store) (u : String)
    (h : stores ≠ []) :
    ∃ c ∈ stores,
      find_nearest_store q stores u =
        some { c with distance_to_store := some (store_distance q u c) } ∧
      ∀ c' ∈ stores, store_distance q u c ≤ store_distance q u c' := by
  obtain ⟨hd, rest, rfl⟩ := List.exists_cons_of_ne_nil h
  obtain ⟨l₁, c, l₂, hl, hres, -, -, hle⟩ :=
    find_nearest_loop_first_min q u (hd :: rest) (2 * Real.pi * selected_radius u) none
      ⟨hd, List.mem_cons_self hd rest, head_beats_sentinel q u hd⟩
  refine ⟨c, ?_, ?_, hle⟩
  · rw [hl]
    exact List.mem_append_right _ (List.mem_cons_self c l₂)
  · rw [find_nearest_store_eq_loop]
    exact hres

theorem find_nearest_store_min_correct_witness :
    ([sampleStore] : List Store) ≠ [] ∧
    ∃ c ∈ [sampleStore],
      find_nearest_store samplePoint [sampleStore] "mi" =
        some { c with distance_to_store := some (store_distance samplePoint "mi" c) } ∧
      ∀ c' ∈ [sampleStore],
        store_distance samplePoint "mi" c ≤ store_distance samplePoint "mi" c' :=
  ⟨by simp, find_nearest_store_min_correct samplePoint [sampleStore] "mi" (by simp)⟩

/-- C2: invoked with an empty candidate list, `find_nearest_store`
produces no result: the loop never binds a nearest store, which is
modelled by the `none` return value (the Python code raises there). -/
theorem find_nearest_store_empty (q : Point) (u : String) :
    find_nearest_store q [] u = none := by
  rw [find_nearest_store_eq_loop]
  rfl

/-- C3: for every non-empty candidate list, the store returned by
`find_nearest_store` is the first candidate achieving the minimal
distance: the list splits as `l₁ ++ c :: l₂` where the winner `c` is at
strictly smaller distance than every candidate of the prefix `l₁` and at
distance less than or equal to every candidate; in particular a later
candidate at exactly the same distance never replaces it. -/
theorem find_nearest_store_first_of_ties (q : Point) (stores : List Store) (u : String)
    (h : stores ≠ []) :
    ∃ l₁ c l₂, stores = l₁ ++ c :: l₂ ∧
      find_nearest_store q stores u =
        some { c with distance_to_store := some (store_distance q u c) } ∧
      (∀ c' ∈ l₁, store_distance q u c < store_distance q u c') ∧
      (∀ c' ∈ stores, store_distance q u c ≤ store_distance q u c') := by
  obtain ⟨hd, rest, rfl⟩ := List.exists_cons_of_ne_nil h
  obtain ⟨l₁, c, l₂, hl, hres, -, hearlier, hle⟩ :=
    find_nearest_loop_first_min q u (hd :: rest) (2 * Real.pi * selected_radius u) none
      ⟨hd, List.mem_cons_self hd rest, head_beats_sentinel q u hd⟩
  refine ⟨l₁, c, l₂, hl, ?_, hearlier, hle⟩
  rw [find_nearest_store_eq_loop]
  exact hres

theorem find_nearest_store_first_of_ties_witness :
    ([sampleStore, sampleStore2] : List Store) ≠ [] ∧
    ∃ l₁ c l₂, ([sampleStore, sampleStore2] : List Store) = l₁ ++ c :: l₂ ∧
      find_nearest_store samplePoint [sampleStore, sampleStore2] "km" =
        some { c with distance_to_store := some (store_distance samplePoint "km" c) } ∧
      (∀ c' ∈ l₁, store_distance samplePoint "km" c < store_distance samplePoint "km" c') ∧
      (∀ c' ∈ [sampleStore, sampleStore2],
        store_distance samplePoint "km" c ≤ store_distance samplePoint "km" c') :=
  ⟨by simp, find_nearest_store_first_of_ties samplePoint [sampleStore, sampleStore2] "km" (by simp)⟩

/-- C5: `distance_between` is symmetric in its two point arguments, for
all points and unit strings (so in particular for all valid points). -/
theorem distance_between_symm (a b : Point) (u : String) :
    distance_between a b u = distance_between b a u := by
  rw [distance_between_eq, distance_between_eq,
    sin_sq_half_symm b.latitude_radians a.latitude_radians,
    sin_sq_half_symm b.longitude_radians a.longitude_radians,
    mul_comm (Real.cos a.latitude_radians) (Real.cos b.latitude_radians)]

/-- C10: for every non-empty store list, the first candidate's distance is
strictly below the sentinel `2·π·R` that seeds the running best, so the
loop assigns a nearest store on the first iteration and
`find_nearest_store` always returns a result (the unbound-result failure
branch, modelled by `none`, is unreachable). -/
theorem find_nearest_store_total (q : Point) (stores : List Store) (u : String)
    (h : stores ≠ []) :
    store_distance q u (stores.head h) <
      (if u = "mi" then 2 * Real.pi * EARTH_RADIUS_MI else 2 * Real.pi * EARTH_RADIUS_KM) ∧
    ∃ s, find_nearest_store q stores u = some s := by
  constructor
  · rw [circumference_eq]
    exact head_beats_sentinel q u _
  · obtain ⟨hd, rest, rfl⟩ := List.exists_cons_of_ne_nil h
    obtain ⟨l₁, c, l₂, -, hres, -, -, -⟩ :=
      find_nearest_loop_first_min q u (hd :: rest) (2 * Real.pi * selected_radius u) none
        ⟨hd, List.mem_cons_self hd rest, head_beats_sentinel q u hd⟩
    refine ⟨{ c with distance_to_store := some (store_distance q u c) }, ?_⟩
    rw [find_nearest_store_eq_loop]
    exact hres

/-- C6: for all points and unit strings the computed distance is
non-negative and at most the sphere's half-circumference `π·R(U)`, where
`R("mi") = 6371·0.621371` and `R("km") = 6371` (so in particular this
holds for all valid points). -/
theorem distance_between_bounds (a b : Point) (u : String) :
    0 ≤ distance_between a b u ∧
    distance_between a b u ≤
      Real.pi * (if u = "mi" then 6371 * 0.621371 else (6371 : ℝ)) := by
  have hradius : (if u = "mi" then (6371 : ℝ) * 0.621371 else (6371 : ℝ)) =
      selected_radius u := by
    unfold selected_radius EARTH_RADIUS_MI EARTH_RADIUS_KM KM_TO_MI
    split <;> norm_num
  rw [hradius]
  exact ⟨distance_between_nonneg a b u, distance_between_le a b u⟩

theorem pole_distance_zero (u : String) :
    distance_between ⟨90, 0⟩ ⟨90, 90⟩ u = 0 := by
  rw [distance_between_eq]
  have h1 : (⟨90, 0⟩ : Point).latitude_radians = Real.pi / 2 := by
    unfold Point.latitude_radians
    ring
  have h2 : (⟨90, 90⟩ : Point).latitude_radians = Real.pi / 2 := by
    unfold Point.latitude_radians
    ring
  rw [h1, h2]
  have h3 : (Real.pi / 2 - Real.pi / 2) / 2 = 0 := by ring
  rw [h3, Real.sin_zero, Real.cos_pi_div_two]
  norm_num [Real.sqrt_zero, Real.arcsin_zero]

/-- C4 counterexample: the two distinct valid points `(90, 0)` and
`(90, 90)` (both at the north pole) are at haversine distance zero, so
"distance zero iff coordinate-identical" fails on the code. -/
theorem distance_zero_iff_counterexample :
    ¬ (distance_between ⟨90, 0⟩ ⟨90, 90⟩ "mi" = 0 ↔
        (⟨90, 0⟩ : Point) = ⟨90, 90⟩) := by
  rw [pole_distance_zero "mi"]
  norm_num [Point.mk.injEq]

theorem distance_self_zero (p : Point) (u : String) :
    distance_between p p u = 0 := by
  rw [distance_between_eq]
  simp [sub_self, Real.sin_zero, Real.sqrt_zero, Real.arcsin_zero]

/-- C4 amended: `distance_between p p v = 0` for every point `p` and every
unit string `v`, unconditionally; and for points whose latitudes lie
strictly between `-90` and `90` degrees (so away from the poles) and whose
longitudes differ by strictly less than `360` degrees (no full
wraparound), the distance is zero iff the two points are
coordinate-identical. -/
theorem distance_zero_iff_amended (a b : Point) (u : String)
    (ha : |a.latitude| < 90) (hb : |b.latitude| < 90)
    (hlon : |b.longitude - a.longitude| < 360) :
    (∀ (p : Point) (v : String), distance_between p p v = 0) ∧
    (distance_between a b u = 0 ↔ a = b) := by
  refine ⟨fun p v => distance_self_zero p v, ?_⟩
  constructor
  · intro h0
    rw [distance_between_eq] at h0
    have hr := selected_radius_pos u
    have hpi := Real.pi_pos
    have hca : 0 < Real.cos a.latitude_radians := by
      apply Real.cos_pos_of_mem_Ioo
      unfold Point.latitude_radians
      obtain ⟨hal, har⟩ := abs_lt.mp ha
      constructor
      · nlinarith
      · nlinarith
    have hcb : 0 < Real.cos b.latitude_radians := by
      apply Real.cos_pos_of_mem_Ioo
      unfold Point.latitude_radians
      obtain ⟨hbl, hbr⟩ := abs_lt.mp hb
      constructor
      · nlinarith
      · nlinarith
    set A1 := Real.sin ((b.latitude_radians - a.latitude_radians) / 2) ^ 2 with hA1def
    set A2 := Real.cos a.latitude_radians * Real.cos b.latitude_radians *
      Real.sin ((b.longitude_radians - a.longitude_radians) / 2) ^ 2 with hA2def
    have hA1nonneg : 0 ≤ A1 := sq_nonneg _
    have hA2nonneg : 0 ≤ A2 := by
      apply mul_nonneg (mul_nonneg hca.le hcb.le)
      exact sq_nonneg _
    have harcsin : Real.arcsin (Real.sqrt (A1 + A2)) = 0 := by
      rcases mul_eq_zero.mp h0 with h | h
      · exfalso
        rcases mul_eq_zero.mp h with h2 | h2
        · norm_num at h2
        · linarith
      · exact h
    have hsqrt : Real.sqrt (A1 + A2) = 0 := by
      by_contra hne
      have hpos : 0 < Real.sqrt (A1 + A2) :=
        lt_of_le_of_ne (Real.sqrt_nonneg _) (Ne.symm hne)
      have := Real.arcsin_pos.mpr hpos
      linarith
    have hsum : A1 + A2 = 0 := le_antisymm (Real.sqrt_eq_zero'.mp hsqrt) (by linarith)
    have hA1 : A1 = 0 := by linarith
    have hA2 : A2 = 0 := by linarith
    have hlat_eq : a.latitude = b.latitude := by
      have hs : Real.sin ((b.latitude_radians - a.latitude_radians) / 2) = 0 :=
        pow_eq_zero_iff two_ne_zero |>.mp hA1
      have hform : (b.latitude_radians - a.latitude_radians) / 2 =
          (b.latitude - a.latitude) * (Real.pi / 360) := by
        unfold Point.latitude_radians
        ring
      rw [hform] at hs
      obtain ⟨hal, har⟩ := abs_lt.mp ha
      obtain ⟨hbl, hbr⟩ := abs_lt.mp hb
      have hbound1 : -Real.pi < (b.latitude - a.latitude) * (Real.pi / 360) := by nlinarith
      have hbound2 : (b.latitude - a.latitude) * (Real.pi / 360) < Real.pi := by nlinarith
      have := (Real.sin_eq_zero_iff_of_lt_of_lt hbound1 hbound2).mp hs
      rcases mul_eq_zero.mp this with h | h
      · linarith [sub_eq_zero.mp h]
      · exfalso
        have : Real.pi = 0 := by linarith
        linarith
    have hlon_eq : a.longitude = b.longitude := by
      have hs2 : Real.sin ((b.longitude_radians - a.longitude_radians) / 2) ^ 2 = 0 := by
        rcases mul_eq_zero.mp hA2 with h | h
        · exfalso
          rcases mul_eq_zero.mp h with h2 | h2
          · linarith
          · linarith
        · exact h
      have hs : Real.sin ((b.longitude_radians - a.longitude_radians) / 2) = 0 :=
        pow_eq_zero_iff two_ne_zero |>.mp hs2
      have hform : (b.longitude_radians - a.longitude_radians) / 2 =
          (b.longitude - a.longitude) * (Real.pi / 360) := by
        unfold Point.longitude_radians
        ring
      rw [hform] at hs
      obtain ⟨hll, hlr⟩ := abs_lt.mp hlon
      have hbound1 : -Real.pi < (b.longitude - a.longitude) * (Real.pi / 360) := by nlinarith
      have hbound2 : (b.longitude - a.longitude) * (Real.pi / 360) < Real.pi := by nlinarith
      have := (Real.sin_eq_zero_iff_of_lt_of_lt hbound1 hbound2).mp hs
      rcases mul_eq_zero.mp this with h | h
      · linarith [sub_eq_zero.mp h]
      · exfalso
        have : Real.pi = 0 := by linarith
        linarith
    cases a
    cases b
    simp only [Point.mk.injEq]
    exact ⟨hlat_eq, hlon_eq⟩
  · intro h
    rw [h]
    exact distance_self_zero b u

theorem distance_zero_iff_amended_witness :
    |(⟨10, 20⟩ : Point).latitude| < 90 ∧
    |(⟨10, 20⟩ : Point).longitude - (⟨10, 20⟩ : Point).longitude| < 360 ∧
    ((∀ (p : Point) (v : String), distance_between p p v = 0) ∧
      (distance_between ⟨10, 20⟩ ⟨10, 20⟩ "mi" = 0 ↔ (⟨10, 20⟩ : Point) = ⟨10, 20⟩)) :=
  ⟨by norm_num, by norm_num,
    distance_zero_iff_amended ⟨10, 20⟩ ⟨10, 20⟩ "mi" (by norm_num) (by norm_num) (by norm_num)⟩

theorem find_nearest_store_total_witness :
    ([sampleStore2] : List Store) ≠ [] ∧
    (store_distance samplePoint "mi" (([sampleStore2] : List Store).head (by simp)) <
      (if "mi" = "mi" then 2 * Real.pi * EARTH_RADIUS_MI else 2 * Real.pi * EARTH_RADIUS_KM) ∧
    ∃ s, find_nearest_store samplePoint [sampleStore2] "mi" = some s) :=
  ⟨by simp, find_nearest_store_total samplePoint [sampleStore2] "mi" (by simp)⟩

theorem selected_radius_mi : selected_radius "mi" = EARTH_RADIUS_KM * KM_TO_MI := by
  unfold selected_radius EARTH_RADIUS_MI
  rw [if_pos rfl]

theorem selected_radius_km : selected_radius "km" = EARTH_RADIUS_KM := by
  unfold selected_radius
  rw [if_neg (by decide)]

theorem distance_mi_eq_km_scaled (a b : Point) :
    distance_between a b "mi" = KM_TO_MI * distance_between a b "km" := by
  rw [distance_between_eq, distance_between_eq, selected_radius_mi, selected_radius_km]
  ring

/-- C7 counterexample: the valid, non-identical pole points `(90, 0)` and
`(90, 90)` are both at distance zero, so the kilometres/miles ratio is
`0 / 0`, not `1 / 0.621371`; the claim fails for this non-identical
pair. -/
theorem unit_ratio_counterexample :
    (⟨90, 0⟩ : Point) ≠ ⟨90, 90⟩ ∧
    distance_between ⟨90, 0⟩ ⟨90, 90⟩ "km" /
      distance_between ⟨90, 0⟩ ⟨90, 90⟩ "mi" ≠ 1 / 0.621371 := by
  constructor
  · norm_num [Point.mk.injEq]
  · rw [pole_distance_zero, pole_distance_zero]
    norm_num

/-- C7 amended: whenever the two points are at nonzero distance (rather
than merely non-identical), the ratio of the kilometres distance to the
miles distance equals `1 / 0.621371`, because the miles radius is the
kilometres radius scaled by `0.621371` and the distance is linear in the
radius. -/
theorem unit_ratio_amended (a b : Point)
    (h : distance_between a b "mi" ≠ 0) :
    distance_between a b "km" / distance_between a b "mi" = 1 / 0.621371 := by
  rw [distance_mi_eq_km_scaled] at h ⊢
  rw [div_eq_div_iff h (by norm_num : (0.621371 : ℝ) ≠ 0)]
  unfold KM_TO_MI
  ring

theorem equator_distance_pos (u : String) :
    0 < distance_between ⟨0, 0⟩ ⟨0, 90⟩ u := by
  rw [distance_between_eq]
  have hr := selected_radius_pos u
  have h1 : (⟨0, 0⟩ : Point).latitude_radians = 0 := by
    unfold Point.latitude_radians
    ring
  have h2 : (⟨0, 90⟩ : Point).latitude_radians = 0 := by
    unfold Point.latitude_radians
    ring
  have h3 : (⟨0, 0⟩ : Point).longitude_radians = 0 := by
    unfold Point.longitude_radians
    ring
  have h4 : (⟨0, 90⟩ : Point).longitude_radians = Real.pi / 2 := by
    unfold Point.longitude_radians
    ring
  rw [h1, h2, h3, h4]
  have e1 : ((0 : ℝ) - 0) / 2 = 0 := by norm_num
  have e2 : (Real.pi / 2 - 0) / 2 = Real.pi / 4 := by ring
  rw [e1, e2, Real.sin_zero, Real.cos_zero, Real.sin_pi_div_four]
  have e3 : (0 : ℝ) ^ 2 + 1 * 1 * (Real.sqrt 2 / 2) ^ 2 = 1 / 2 := by
    rw [div_pow, Real.sq_sqrt (by norm_num : (0 : ℝ) ≤ 2)]
    norm_num
  rw [e3]
  have harc : 0 < Real.arcsin (Real.sqrt (1 / 2)) :=
    Real.arcsin_pos.mpr (Real.sqrt_pos.mpr (by norm_num))
  nlinarith

theorem unit_ratio_amended_witness :
    distance_between ⟨0, 0⟩ ⟨0, 90⟩ "mi" ≠ 0 ∧
    distance_between ⟨0, 0⟩ ⟨0, 90⟩ "km" / distance_between ⟨0, 0⟩ ⟨0, 90⟩ "mi" =
      1 / 0.621371 :=
  ⟨(equator_distance_pos "mi").ne',
    unit_ratio_amended ⟨0, 0⟩ ⟨0, 90⟩ (equator_distance_pos "mi").ne'⟩

theorem scenario_distance (u : String) :
    distance_between ⟨133, 37⟩ ⟨133.608, 37⟩ u =
      2 * selected_radius u * (19 * Real.pi / 11250) := by
  rw [distance_between_eq]
  have h608 : (133.608 : ℝ) = 16701 / 125 := by norm_num
  have hlat : ((⟨133.608, 37⟩ : Point).latitude_radians -
      (⟨133, 37⟩ : Point).latitude_radians) / 2 = 19 * Real.pi / 11250 := by
    unfold Point.latitude_radians
    rw [h608]
    ring
  have hlon : ((⟨133.608, 37⟩ : Point).longitude_radians -
      (⟨133, 37⟩ : Point).longitude_radians) / 2 = 0 := by
    unfold Point.longitude_radians
    ring
  rw [hlat, hlon, Real.sin_zero]
  have hpi := Real.pi_pos
  have hx0 : (0 : ℝ) ≤ 19 * Real.pi / 11250 := by positivity
  have hxpi : 19 * Real.pi / 11250 ≤ Real.pi := by nlinarith
  have hsin0 : 0 ≤ Real.sin (19 * Real.pi / 11250) :=
    Real.sin_nonneg_of_nonneg_of_le_pi hx0 hxpi
  have e : Real.sin (19 * Real.pi / 11250) ^ 2 +
      Real.cos ((⟨133, 37⟩ : Point).latitude_radians) *
        Real.cos ((⟨133.608, 37⟩ : Point).latitude_radians) * 0 ^ 2 =
      Real.sin (19 * Real.pi / 11250) ^ 2 := by ring
  rw [e, Real.sqrt_sq hsin0, Real.arcsin_sin (by linarith) (by nlinarith)]

/-- C8: at the test-suite points `A = (133, 37)` and `B = (133.608, 37)`
the computed distance is within one percent of `42` miles and within one
percent of `67.6` kilometres. -/
theorem scenario_distance_approx :
    |distance_between ⟨133, 37⟩ ⟨133.608, 37⟩ "mi" - 42| ≤ 0.01 * 42 ∧
    |distance_between ⟨133, 37⟩ ⟨133.608, 37⟩ "km" - 67.6| ≤ 0.01 * 67.6 := by
  have hmi := scenario_distance "mi"
  have hkm := scenario_distance "km"
  rw [selected_radius_mi] at hmi
  rw [selected_radius_km] at hkm
  unfold EARTH_RADIUS_KM KM_TO_MI at hmi
  unfold EARTH_RADIUS_KM at hkm
  have hgt := Real.pi_gt_d6
  have hlt := Real.pi_lt_d6
  constructor
  · rw [hmi, abs_le]
    constructor <;> nlinarith
  · rw [hkm, abs_le]
    constructor <;> nlinarith

theorem distance_units_collapse (u : String) (h : u ≠ "mi") (a b : Point) :
    distance_between a b u = distance_between a b "km" := by
  rw [distance_between_eq, distance_between_eq]
  have hsel : selected_radius u = selected_radius "km" := by
    unfold selected_radius
    rw [if_neg h, if_neg (by decide)]
  rw [hsel]

theorem find_nearest_loop_units_collapse (q : Point) (u : String) (h : u ≠ "mi") :
    ∀ (l : List Store) (best : Option Store) (s : ℝ),
      find_nearest_loop q u l best s = find_nearest_loop q "km" l best s := by
  intro l
  induction l with
  | nil => intro best s; rfl
  | cons hd rest ih =>
    intro best s
    simp only [find_nearest_loop]
    rw [distance_units_collapse u h]
    by_cases hc : distance_between q ⟨hd.latitude, hd.longitude⟩ "km" < s
    · rw [if_pos hc, if_pos hc, ih]
    · rw [if_neg hc, if_neg hc, ih]

/-- C9: the miles radius is selected exactly when the units string is
`"mi"` (so the miles distance is the kilometres distance scaled by
`0.621371`), and for any other units string whatsoever — `"km"`,
`"kilometers"`, the empty string — both `distance_between` and
`find_nearest_store` behave exactly as with `"km"`; no input is
rejected. -/
theorem units_dispatch (a b q : Point) (stores : List Store) (u : String)
    (h : u ≠ "mi") :
    distance_between a b "mi" = KM_TO_MI * distance_between a b "km" ∧
    distance_between a b u = distance_between a b "km" ∧
    find_nearest_store q stores u = find_nearest_store q stores "km" := by
  refine ⟨distance_mi_eq_km_scaled a b, distance_units_collapse u h a b, ?_⟩
  rw [find_nearest_store_eq_loop, find_nearest_store_eq_loop]
  have hsel : selected_radius u = selected_radius "km" := by
    unfold selected_radius
    rw [if_neg h, if_neg (by decide)]
  rw [hsel, find_nearest_loop_units_collapse q u h]

theorem units_dispatch_witness :
    ("kilometers" : String) ≠ "mi" ∧
    (distance_between ⟨0, 0⟩ samplePoint "mi" =
        KM_TO_MI * distance_between ⟨0, 0⟩ samplePoint "km" ∧
      distance_between ⟨0, 0⟩ samplePoint "kilometers" =
        distance_between ⟨0, 0⟩ samplePoint "km" ∧
      find_nearest_store samplePoint [sampleStore] "kilometers" =
        find_nearest_store samplePoint [sampleStore] "km") :=
  ⟨by decide,
    units_dispatch ⟨0, 0⟩ samplePoint samplePoint [sampleStore] "kilometers" (by decide)⟩

end StoreFinder
